import Mathlib

/-
Verification of the fiscal ledger computation engine of the
Gestion-Fiscal-Abogados repository: Spanish tax-id validation,
sequential document numbering, the tax-model aggregations
(modelos 303, 390, 130, 111, 347) and the duplicate-number write guard.

Monetary amounts are modelled as exact rationals (the spec prescribes
decimal-safe, rounding-free arithmetic for the engine); the IEEE-754
special values relevant to the defensive-aggregation claim are modelled
separately by the type JSNum.  Dates are modelled by the projections the
code actually reads: getFullYear as a Nat and getMonth as a Fin 12.
-/

/-- The two record kinds, mirroring the InvoiceType enum of types.ts. -/
inductive InvoiceType where
  | INCOME
  | EXPENSE
deriving DecidableEq, Repr

/-- The fields of the Invoice interface (types.ts) that the fiscal engine
reads.  Optional numeric fields that the aggregator never touches are
omitted; the optional deductible flag is modelled as a Bool, absent
meaning false, matching its use in truthiness tests. -/
structure Invoice where
  id : String
  type : InvoiceType
  number : String
  dateYear : Nat
  dateMonth : Fin 12
  nif : String
  entityName : String
  baseAmount : ℚ
  ivaRate : ℚ
  ivaAmount : ℚ
  irpfRate : ℚ
  irpfAmount : ℚ
  totalAmount : ℚ
  deductible : Bool
deriving DecidableEq, Repr

/-- Embedding of the reduce-and-add pattern
l.reduce((sum, i) => sum + f(i), 0) used throughout the aggregator. -/
def sumBy (f : Invoice → ℚ) (l : List Invoice) : ℚ :=
  l.foldl (fun s i => s + f i) 0

/-- invoices.filter(inv => new Date(inv.date).getFullYear() === currentYear)
(TaxModels calculations, line 18). -/
def yearInvoices (invoices : List Invoice) (year : Nat) : List Invoice :=
  invoices.filter (fun inv => inv.dateYear == year)

/-- yearInvoices.filter(i => i.type === InvoiceType.INCOME) (line 21). -/
def incomes (invoices : List Invoice) (year : Nat) : List Invoice :=
  (yearInvoices invoices year).filter (fun i => i.type == InvoiceType.INCOME)

/-- yearInvoices.filter(i => i.type === InvoiceType.EXPENSE && i.deductible)
(line 22). -/
def expenses (invoices : List Invoice) (year : Nat) : List Invoice :=
  (yearInvoices invoices year).filter
    (fun i => i.type == InvoiceType.EXPENSE && i.deductible)

/-- incomes.reduce((sum, i) => sum + i.ivaAmount, 0) (line 24). -/
def ivaDevengado (invoices : List Invoice) (year : Nat) : ℚ :=
  sumBy (fun i => i.ivaAmount) (incomes invoices year)

/-- incomes.reduce((sum, i) => sum + i.baseAmount, 0) (line 25). -/
def baseDevengado (invoices : List Invoice) (year : Nat) : ℚ :=
  sumBy (fun i => i.baseAmount) (incomes invoices year)

/-- expenses.reduce((sum, i) => sum + i.ivaAmount, 0) (line 27). -/
def ivaSoportado (invoices : List Invoice) (year : Nat) : ℚ :=
  sumBy (fun i => i.ivaAmount) (expenses invoices year)

/-- expenses.reduce((sum, i) => sum + i.baseAmount, 0) (line 28). -/
def baseSoportado (invoices : List Invoice) (year : Nat) : ℚ :=
  sumBy (fun i => i.baseAmount) (expenses invoices year)

/-- const result303 = ivaDevengado - ivaSoportado (line 30). -/
def result303 (invoices : List Invoice) (year : Nat) : ℚ :=
  ivaDevengado invoices year - ivaSoportado invoices year

/-- const totalIngresos = incomes.reduce((sum, i) => sum + i.baseAmount, 0)
(line 53). -/
def totalIngresos (invoices : List Invoice) (year : Nat) : ℚ :=
  sumBy (fun i => i.baseAmount) (incomes invoices year)

/-- const totalGastos = expenses.reduce((sum, i) => sum + i.baseAmount, 0)
(line 54). -/
def totalGastos (invoices : List Invoice) (year : Nat) : ℚ :=
  sumBy (fun i => i.baseAmount) (expenses invoices year)

/-- const rendimientoNeto = totalIngresos - totalGastos (line 55). -/
def rendimientoNeto (invoices : List Invoice) (year : Nat) : ℚ :=
  totalIngresos invoices year - totalGastos invoices year

/-- const pagoTeorico = rendimientoNeto > 0 ? rendimientoNeto * 0.20 : 0
(line 58). -/
def pagoTeorico (invoices : List Invoice) (year : Nat) : ℚ :=
  if rendimientoNeto invoices year > 0 then rendimientoNeto invoices year * 0.20 else 0

/-- const retencionesSoportadas =
incomes.reduce((sum, i) => sum + i.irpfAmount, 0) (line 61). -/
def retencionesSoportadas (invoices : List Invoice) (year : Nat) : ℚ :=
  sumBy (fun i => i.irpfAmount) (incomes invoices year)

/-- const resultadoIrpfAnual = pagoTeorico - retencionesSoportadas (line 64). -/
def resultadoIrpfAnual (invoices : List Invoice) (year : Nat) : ℚ :=
  pagoTeorico invoices year - retencionesSoportadas invoices year

/-- const retencionesPracticadas =
expenses.reduce((sum, i) => sum + i.irpfAmount, 0) (line 69). -/
def retencionesPracticadas (invoices : List Invoice) (year : Nat) : ℚ :=
  sumBy (fun i => i.irpfAmount) (expenses invoices year)

/-- The quarter filter of quarterData (lines 143-149): startMonth = (q-1)*3,
endMonth = startMonth + 2, keep invoices of the year whose month lies in
[startMonth, endMonth]. -/
def quarterPred (year q : Nat) (inv : Invoice) : Bool :=
  inv.dateYear == year && decide ((q - 1) * 3 ≤ (inv.dateMonth : Nat))
    && decide ((inv.dateMonth : Nat) ≤ (q - 1) * 3 + 2)

/-- const qInvoices = invoices.filter(... year and quarter window ...). -/
def quarterInvoices (invoices : List Invoice) (year q : Nat) : List Invoice :=
  invoices.filter (quarterPred year q)

/-- const qIncomes = qInvoices.filter(i => i.type === InvoiceType.INCOME)
(line 151). -/
def qIncomes (invoices : List Invoice) (year q : Nat) : List Invoice :=
  (quarterInvoices invoices year q).filter (fun i => i.type == InvoiceType.INCOME)

/-- const qExpenses = qInvoices.filter(i => i.type === EXPENSE && i.deductible)
(line 152). -/
def qExpenses (invoices : List Invoice) (year q : Nat) : List Invoice :=
  (quarterInvoices invoices year q).filter
    (fun i => i.type == InvoiceType.EXPENSE && i.deductible)

/-- const devengado = qIncomes.reduce((s, i) => s + i.ivaAmount, 0) (line 154). -/
def devengadoQ (invoices : List Invoice) (year q : Nat) : ℚ :=
  sumBy (fun i => i.ivaAmount) (qIncomes invoices year q)

/-- const soportado = qExpenses.reduce((s, i) => s + i.ivaAmount, 0) (line 155). -/
def soportadoQ (invoices : List Invoice) (year q : Nat) : ℚ :=
  sumBy (fun i => i.ivaAmount) (qExpenses invoices year q)

/-- res303: devengado - soportado (line 173). -/
def res303Q (invoices : List Invoice) (year q : Nat) : ℚ :=
  devengadoQ invoices year q - soportadoQ invoices year q

/-- const ingresos = qIncomes.reduce((s, i) => s + i.baseAmount, 0) (line 157). -/
def ingresosQ (invoices : List Invoice) (year q : Nat) : ℚ :=
  sumBy (fun i => i.baseAmount) (qIncomes invoices year q)

/-- const gastos = qExpenses.reduce((s, i) => s + i.baseAmount, 0) (line 158). -/
def gastosQ (invoices : List Invoice) (year q : Nat) : ℚ :=
  sumBy (fun i => i.baseAmount) (qExpenses invoices year q)

/-- const rend = ingresos - gastos (line 159). -/
def rendQ (invoices : List Invoice) (year q : Nat) : ℚ :=
  ingresosQ invoices year q - gastosQ invoices year q

/-- const pagoCuenta = rend > 0 ? rend * 0.20 : 0 (line 162). -/
def pagoCuentaQ (invoices : List Invoice) (year q : Nat) : ℚ :=
  if rendQ invoices year q > 0 then rendQ invoices year q * 0.20 else 0

/-- const retenciones = qIncomes.reduce((s, i) => s + i.irpfAmount, 0)
(line 163). -/
def retencionesQ (invoices : List Invoice) (year q : Nat) : ℚ :=
  sumBy (fun i => i.irpfAmount) (qIncomes invoices year q)

/-- const result130 = pagoCuenta - retenciones (line 164). -/
def result130Q (invoices : List Invoice) (year q : Nat) : ℚ :=
  pagoCuentaQ invoices year q - retencionesQ invoices year q

/-- Quarterly model 111: qExpenses.reduce((s, i) => s + i.irpfAmount, 0)
(line 167). -/
def retencionesPracticadasQ (invoices : List Invoice) (year q : Nat) : ℚ :=
  sumBy (fun i => i.irpfAmount) (qExpenses invoices year q)

/-
Model 390 deductible-expense breakdown by VAT rate (TaxModels lines 32-49).
The JS accumulator is an object keyed by rate; it is modelled as an
association list in insertion order, which is observably equivalent because
object keys are unique and the list is re-sorted before use.
-/

/-- One entry of the desglose: a VAT rate with its accumulated base and
quota. -/
structure RateEntry where
  rate : ℚ
  base : ℚ
  quota : ℚ
deriving DecidableEq, Repr

/-- One step of the reduce of lines 33-41: if the rate key exists, add the
base and quota of the invoice to it, otherwise create the entry (the JS
code initialises the entry to zero and then adds, with the same net
effect). -/
def addRate (acc : List RateEntry) (inv : Invoice) : List RateEntry :=
  if acc.any (fun e => e.rate == inv.ivaRate) then
    acc.map (fun e =>
      if e.rate == inv.ivaRate then
        { e with base := e.base + inv.baseAmount, quota := e.quota + inv.ivaAmount }
      else e)
  else
    acc ++ [{ rate := inv.ivaRate, base := inv.baseAmount, quota := inv.ivaAmount }]

/-- const desgloseSoportado = expenses.reduce(..., {}) (lines 33-41). -/
def desgloseSoportado (invoices : List Invoice) (year : Nat) : List RateEntry :=
  (expenses invoices year).foldl addRate []

/-- The comparison used by sort((a, b) => b.rate - a.rate): descending by
rate. -/
def rateGE (a b : RateEntry) : Prop := b.rate ≤ a.rate

instance : DecidableRel rateGE := fun a b => inferInstanceAs (Decidable (b.rate ≤ a.rate))

instance : IsTotal RateEntry rateGE := ⟨fun a b => le_total b.rate a.rate⟩

instance : IsTrans RateEntry rateGE := ⟨fun _ _ _ hab hbc => le_trans hbc hab⟩

/-- const listadoDesgloseSoportado = Object.entries(...).map(...).sort(
(a, b) => b.rate - a.rate) (lines 44-49). -/
def listadoDesgloseSoportado (invoices : List Invoice) (year : Nat) : List RateEntry :=
  List.insertionSort rateGE (desgloseSoportado invoices year)

/-
Model 347 (TaxModels lines 71-82).
-/

/-- One entry of operationsByNif: tax id, name, accumulated total and the
type recorded when the entry was created. -/
structure Op347 where
  nif : String
  name : String
  total : ℚ
  type : InvoiceType
deriving DecidableEq, Repr

/-- One step of the reduce of lines 72-78: on first occurrence of a nif the
entry is created carrying that record's entityName and type (and total 0),
then Math.abs(curr.totalAmount) is added to the entry's total. -/
def addOp (acc : List Op347) (curr : Invoice) : List Op347 :=
  if acc.any (fun e => e.nif == curr.nif) then
    acc.map (fun e =>
      if e.nif == curr.nif then { e with total := e.total + |curr.totalAmount| } else e)
  else
    acc ++ [{ nif := curr.nif, name := curr.entityName, total := |curr.totalAmount|,
              type := curr.type }]

/-- const operationsByNif = yearInvoices.reduce(..., {}) (lines 72-78). -/
def operationsByNif (invoices : List Invoice) (year : Nat) : List Op347 :=
  (yearInvoices invoices year).foldl addOp []

/-- const model347List = Object.entries(operationsByNif)
.filter(([_, data]) => data.total > 3005.06).map(...) (lines 80-82). -/
def model347List (invoices : List Invoice) (year : Nat) : List Op347 :=
  (operationsByNif invoices year).filter (fun e => decide ((3005.06 : ℚ) < e.total))

/-- Modelled from the spec: the dominant kind among a 347 group's records,
i.e. the strictly more frequent of INCOME and EXPENSE among the selected
year's records with the given counterparty tax id.  This definition follows
the claim's words and exists only to be compared with the type the code
reports. -/
def dominantKind (invoices : List Invoice) (year : Nat) (nif : String) : Option InvoiceType :=
  let group := (yearInvoices invoices year).filter (fun i => i.nif == nif)
  let incomeCount := (group.filter (fun i => i.type == InvoiceType.INCOME)).length
  let expenseCount := (group.filter (fun i => i.type == InvoiceType.EXPENSE)).length
  if incomeCount > expenseCount then some InvoiceType.INCOME
  else if expenseCount > incomeCount then some InvoiceType.EXPENSE
  else none

/-
Spanish tax-id validation (InvoiceManager, validateSpanishID, lines 92-131).
Strings are normalised by value.toUpperCase().trim(); this is modelled on
the character list with the ASCII case map and ASCII whitespace, which
agrees with the JS behaviour on the relevant inputs.
-/

/-- The whitespace test used for the trim model. -/
def isSpaceChar (c : Char) : Bool :=
  c == ' ' || c == '\t' || c == '\n' || c == '\r'

/-- The model of String.prototype.trim: drop whitespace at both ends. -/
def trimChars (l : List Char) : List Char :=
  ((l.dropWhile isSpaceChar).reverse.dropWhile isSpaceChar).reverse

/-- const str = value.toUpperCase().trim() (line 94), as a character list. -/
def normChars (value : String) : List Char :=
  trimChars (value.data.map Char.toUpper)

/-- const validChars = 'TRWAGMYFPDXBNJZSQVHLCKE' (line 96). -/
def validChars : String := "TRWAGMYFPDXBNJZSQVHLCKE"

/-- parseInt on a digit string: the decimal value of a character list. -/
def digitsToNat (l : List Char) : Nat :=
  l.foldl (fun n c => n * 10 + (c.toNat - 48)) 0

/-- A-Z test, the [A-Z] character class after upper-casing. -/
def isUpperAlpha (c : Char) : Bool := decide ('A' ≤ c) && decide (c ≤ 'Z')

/-- The anchored regex /^[0-9]{8}[A-Z]$/ (line 97). -/
def nifTest (l : List Char) : Bool :=
  l.length == 9 && (l.take 8).all (fun c => c.isDigit) && isUpperAlpha (l.getD 8 ' ')

/-- The anchored regex /^[XYZ][0-9]{7}[A-Z]$/ (line 98). -/
def nieTest (l : List Char) : Bool :=
  l.length == 9
    && (l.getD 0 ' ' == 'X' || l.getD 0 ' ' == 'Y' || l.getD 0 ' ' == 'Z')
    && ((l.drop 1).take 7).all (fun c => c.isDigit)
    && isUpperAlpha (l.getD 8 ' ')

/-- The leading letters allowed by the CIF regex (line 99). -/
def cifLetters : List Char :=
  ['A', 'B', 'C', 'D', 'E', 'F', 'G', 'H', 'J', 'K', 'L', 'M', 'N', 'P', 'Q', 'R', 'S', 'U', 'V', 'W']

/-- The anchored regex /^[ABCDEFGHJKLMNPQRSUVW][0-9]{7}[0-9A-J]$/ (line 99). -/
def cifTest (l : List Char) : Bool :=
  l.length == 9
    && cifLetters.contains (l.getD 0 ' ')
    && ((l.drop 1).take 7).all (fun c => c.isDigit)
    && ((l.getD 8 ' ').isDigit
        || (decide ('A' ≤ l.getD 8 ' ') && decide (l.getD 8 ' ' ≤ 'J')))

/-- validChars.charAt(number % 23) (lines 105 and 120). -/
def checkLetter (number : Nat) : Char :=
  validChars.data.getD (number % 23) ' '

/-- parseInt(str.substr(0, 8), 10) for the DNI branch (line 103). -/
def dniNumber (l : List Char) : Nat := digitsToNat (l.take 8)

/-- The NIE digit string: str.substr(1, 7) prefixed by 0, 1 or 2 according
to the leading X, Y or Z (lines 113-116).  The default arm is unreachable
inside the NIE branch. -/
def nieDigits (l : List Char) : List Char :=
  (match l.getD 0 ' ' with
   | 'X' => '0'
   | 'Y' => '1'
   | 'Z' => '2'
   | _ => '0') :: (l.drop 1).take 7

/-- parseInt(numberStr, 10) for the NIE branch (line 118). -/
def nieNumber (l : List Char) : Nat := digitsToNat (nieDigits l)

/-- The outcome of validateSpanishID: null maps to valid, the two checksum
messages map to invalidChecksum carrying the expected letter they report,
and the final format message maps to unrecognizedFormat. -/
inductive ValidationResult where
  | valid
  | invalidChecksum (expected : Char)
  | unrecognizedFormat
deriving DecidableEq, Repr

/-- validateSpanishID (lines 92-131).  The guard if (!value) return null
short-circuits the empty string to valid. -/
def validateSpanishID (value : String) : ValidationResult :=
  if value = "" then ValidationResult.valid
  else
    let l := normChars value
    if nifTest l then
      let expected := checkLetter (dniNumber l)
      if l.getD 8 ' ' ≠ expected then ValidationResult.invalidChecksum expected
      else ValidationResult.valid
    else if nieTest l then
      let expected := checkLetter (nieNumber l)
      if l.getD 8 ' ' ≠ expected then ValidationResult.invalidChecksum expected
      else ValidationResult.valid
    else if cifTest l then ValidationResult.valid
    else ValidationResult.unrecognizedFormat

/-
Document number sequencer (InvoiceManager, calculateNextNumber,
lines 199-221).  The source reads the current year from the clock; the
embedding passes the two-digit year (yearShort) as a parameter, as the
spec's contract does.
-/

/-- The decimal digit character for a value below ten. -/
def digitChar : Nat → Char
  | 0 => '0'
  | 1 => '1'
  | 2 => '2'
  | 3 => '3'
  | 4 => '4'
  | 5 => '5'
  | 6 => '6'
  | 7 => '7'
  | 8 => '8'
  | 9 => '9'
  | _ => '0'

/-- Fuel-driven digit rendering; the fuel bounds the digit count so the
recursion is structural. -/
def toDecimalAux : Nat → Nat → List Char
  | 0, _ => []
  | fuel + 1, n =>
    if n < 10 then [digitChar n]
    else toDecimalAux fuel (n / 10) ++ [digitChar (n % 10)]

/-- The decimal rendering of a Nat, the model of JS template interpolation
of a number. -/
def toDecimal (n : Nat) : List Char := toDecimalAux (n + 1) n

/-- const prefix = type === InvoiceType.INCOME ? 'A' : 'R' (line 202). -/
def prefixChar : InvoiceType → Char
  | InvoiceType.INCOME => 'A'
  | InvoiceType.EXPENSE => 'R'

/-- The literal head of the numbering pattern: pre, a dash, yy, a dash. -/
def seqHead (pre : Char) (yy : List Char) : List Char :=
  pre :: '-' :: (yy ++ ['-'])

/-- The anchored regex built at line 205, Prefix-YY-(digits), returning the
captured sequence number: some n exactly when the character list is the
literal head followed by a non-empty run of digits with value n. -/
def parseSeq (pre : Char) (yy : List Char) (number : List Char) : Option Nat :=
  if number.take (seqHead pre yy).length == seqHead pre yy
      && !(number.drop (seqHead pre yy).length).isEmpty
      && (number.drop (seqHead pre yy).length).all (fun d => d.isDigit)
  then some (digitsToNat (number.drop (seqHead pre yy).length))
  else none

/-- The template `${prefix}-${yearShort}-${nextSeq}` (line 220). -/
def formatNumber (pre : Char) (yy : List Char) (n : Nat) : String :=
  String.mk (pre :: '-' :: (yy ++ '-' :: toDecimal n))

/-- const relevantInvoices = invoices.filter(i => i.type === type &&
regex.test(i.number)) (line 207). -/
def relevantInvoices (invoices : List Invoice) (t : InvoiceType) (yy : List Char) : List Invoice :=
  invoices.filter (fun i =>
    i.type == t && (parseSeq (prefixChar t) yy i.number.data).isSome)

/-- const maxSeq = relevantInvoices.reduce(..., 0) (lines 210-217): the
running maximum of the captured sequence numbers, with the no-match arm
returning the accumulator unchanged as in the source. -/
def maxSeqOf (invoices : List Invoice) (t : InvoiceType) (yy : List Char) : Nat :=
  (relevantInvoices invoices t yy).foldl
    (fun mx i =>
      match parseSeq (prefixChar t) yy i.number.data with
      | some n => max mx n
      | none => mx) 0

/-- calculateNextNumber (lines 199-221): maxSeq + 1 formatted into the
pattern. -/
def calculateNextNumber (invoices : List Invoice) (t : InvoiceType) (yy : List Char) : String :=
  formatNumber (prefixChar t) yy (maxSeqOf invoices t yy + 1)

/-
Write paths (InvoiceManager handleSubmit lines 847-918 and handleBulkImport
lines 1103-1126).  Only the store-affecting core is modelled: the NIF error
gate, alerts and confirmation dialogs do not touch the record list.
-/

/-- The duplicate test of lines 885-889: some existing record has the same
number and type and a different id. -/
def duplicateExists (invoices : List Invoice) (draft : Invoice) : Bool :=
  (invoices.find? (fun i =>
    i.number == draft.number && i.type == draft.type && i.id != draft.id)).isSome

/-- handleSubmit's effect on the store: reject when the duplicate test
fires, otherwise replace-by-id when editing (line 905) or append when
creating (line 914). -/
def handleSubmit (invoices : List Invoice) (draft : Invoice) (isEdit : Bool) :
    Option (List Invoice) :=
  if duplicateExists invoices draft then none
  else if isEdit then
    some (invoices.map (fun inv => if inv.id == draft.id then draft else inv))
  else some (invoices ++ [draft])

/-- handleBulkImport's effect on the store (line 1116): the parsed invoices
are appended with no duplicate check. -/
def handleBulkImport (invoices newInvoices : List Invoice) : List Invoice :=
  invoices ++ newInvoices

/-- Store states reachable through the write paths of the component:
single save (create or edit), bulk import, and delete. -/
inductive Reachable : List Invoice → Prop where
  | empty : Reachable []
  | submit {s s' : List Invoice} {d : Invoice} {e : Bool} :
      Reachable s → handleSubmit s d e = some s' → Reachable s'
  | bulkImport {s : List Invoice} (l : List Invoice) :
      Reachable s → Reachable (handleBulkImport s l)
  | deleteOne {s : List Invoice} (did : String) :
      Reachable s → Reachable (s.filter (fun i => i.id != did))

/-- Store states reachable through the single-save path only, with the
freshness of crypto.randomUUID made explicit for creates. -/
inductive GuardedReachable : List Invoice → Prop where
  | empty : GuardedReachable []
  | create {s s' : List Invoice} {d : Invoice} :
      GuardedReachable s → (∀ i ∈ s, i.id ≠ d.id) →
      handleSubmit s d false = some s' → GuardedReachable s'
  | edit {s s' : List Invoice} {d : Invoice} :
      GuardedReachable s → handleSubmit s d true = some s' → GuardedReachable s'
  | deleteOne {s : List Invoice} (did : String) :
      GuardedReachable s → GuardedReachable (s.filter (fun i => i.id != did))

/-- No two records of the store share their kind and document number. -/
def UniqueKindNumber (s : List Invoice) : Prop :=
  s.Pairwise (fun a b => ¬(a.type = b.type ∧ a.number = b.number))

/-- The record ids of the store are pairwise distinct. -/
def UniqueIds (s : List Invoice) : Prop :=
  (s.map (fun i => i.id)).Nodup

/-
The IEEE-754 view of the aggregation sums, for the defensive-aggregation
claim: exact rational arithmetic extended with NaN and the two infinities,
with the JS propagation rules for addition and subtraction.
-/

/-- A JS number: a finite (exact) value, NaN, or an infinity. -/
inductive JSNum where
  | num (q : ℚ)
  | nan
  | posInf
  | negInf
deriving DecidableEq, Repr

/-- JS addition on the extended values: NaN absorbs, opposite infinities
give NaN, an infinity otherwise dominates, finite values add exactly. -/
def JSNum.add : JSNum → JSNum → JSNum
  | JSNum.nan, _ => JSNum.nan
  | _, JSNum.nan => JSNum.nan
  | JSNum.posInf, JSNum.negInf => JSNum.nan
  | JSNum.negInf, JSNum.posInf => JSNum.nan
  | JSNum.posInf, _ => JSNum.posInf
  | _, JSNum.posInf => JSNum.posInf
  | JSNum.negInf, _ => JSNum.negInf
  | _, JSNum.negInf => JSNum.negInf
  | JSNum.num a, JSNum.num b => JSNum.num (a + b)

/-- JS subtraction on the extended values. -/
def JSNum.sub : JSNum → JSNum → JSNum
  | JSNum.nan, _ => JSNum.nan
  | _, JSNum.nan => JSNum.nan
  | JSNum.posInf, JSNum.posInf => JSNum.nan
  | JSNum.negInf, JSNum.negInf => JSNum.nan
  | JSNum.posInf, _ => JSNum.posInf
  | _, JSNum.posInf => JSNum.negInf
  | JSNum.negInf, _ => JSNum.negInf
  | _, JSNum.negInf => JSNum.posInf
  | JSNum.num a, JSNum.num b => JSNum.num (a - b)

/-- Number.isFinite. -/
def JSNum.isFinite : JSNum → Bool
  | JSNum.num _ => true
  | _ => false

/-- The invoice fields the aggregation sums read, with JS-number amounts. -/
structure InvoiceJS where
  type : InvoiceType
  dateYear : Nat
  dateMonth : Fin 12
  baseAmount : JSNum
  ivaAmount : JSNum
  irpfAmount : JSNum
  totalAmount : JSNum
  deductible : Bool
deriving DecidableEq, Repr

/-- The reduce-and-add pattern over JS numbers. -/
def sumByJS (f : InvoiceJS → JSNum) (l : List InvoiceJS) : JSNum :=
  l.foldl (fun s i => JSNum.add s (f i)) (JSNum.num 0)

/-- The year filter of TaxModels line 18 over JS-number invoices. -/
def yearInvoicesJS (invoices : List InvoiceJS) (year : Nat) : List InvoiceJS :=
  invoices.filter (fun inv => inv.dateYear == year)

/-- The income filter of line 21 over JS-number invoices. -/
def incomesJS (invoices : List InvoiceJS) (year : Nat) : List InvoiceJS :=
  (yearInvoicesJS invoices year).filter (fun i => i.type == InvoiceType.INCOME)

/-- The deductible-expense filter of line 22 over JS-number invoices. -/
def expensesJS (invoices : List InvoiceJS) (year : Nat) : List InvoiceJS :=
  (yearInvoicesJS invoices year).filter
    (fun i => i.type == InvoiceType.EXPENSE && i.deductible)

/-- Line 24 over JS numbers: the output-VAT total. -/
def ivaDevengadoJS (invoices : List InvoiceJS) (year : Nat) : JSNum :=
  sumByJS (fun i => i.ivaAmount) (incomesJS invoices year)

/-- Line 27 over JS numbers: the input-VAT total. -/
def ivaSoportadoJS (invoices : List InvoiceJS) (year : Nat) : JSNum :=
  sumByJS (fun i => i.ivaAmount) (expensesJS invoices year)

/-- Line 30 over JS numbers: the 303 result. -/
def result303JS (invoices : List InvoiceJS) (year : Nat) : JSNum :=
  JSNum.sub (ivaDevengadoJS invoices year) (ivaSoportadoJS invoices year)

/-- The month window test of a quarter taken alone: startMonth <= m and
m <= endMonth with startMonth = (q-1)*3, endMonth = startMonth + 2. -/
def inQuarterWindow (q m : Nat) : Bool :=
  decide ((q - 1) * 3 ≤ m) && decide (m ≤ (q - 1) * 3 + 2)

/-- The total the 347 grouping accumulates for one tax id: the sum of
Math.abs(totalAmount) over the selected records with that nif. -/
def groupTotal347 (l : List Invoice) (n : String) : ℚ :=
  sumBy (fun i => |i.totalAmount|) (l.filter (fun i => i.nif == n))

/-
Concrete record sets used by the counterexamples and witnesses below.
-/

/-- A template invoice; the examples override the relevant fields. -/
def baseInv : Invoice :=
  { id := "id0", type := InvoiceType.INCOME, number := "A-25-1", dateYear := 2025,
    dateMonth := ⟨0, by omega⟩, nif := "B11111111", entityName := "ACME",
    baseAmount := 0, ivaRate := 21, ivaAmount := 0, irpfRate := 0, irpfAmount := 0,
    totalAmount := 0, deductible := false }

/-- A deductible expense of 100 in Q1 and an income of 100 in Q2: the
annual net yield is 0 while the quarterly yields are -100 and 100. -/
def exC1 : List Invoice :=
  [ { baseInv with
        id := "e1", type := InvoiceType.EXPENSE, deductible := true,
        number := "R-25-1", baseAmount := 100, dateMonth := ⟨0, by omega⟩ },
    { baseInv with
        id := "i1", type := InvoiceType.INCOME,
        number := "A-25-1", baseAmount := 100, dateMonth := ⟨3, by omega⟩ } ]

/-- A single income of 100 in Q1: every quarterly net yield is
nonnegative. -/
def exC1w : List Invoice :=
  [ { baseInv with
        id := "w1", type := InvoiceType.INCOME,
        number := "A-25-2", baseAmount := 100, irpfAmount := 10,
        dateMonth := ⟨0, by omega⟩ } ]

/-- One INCOME record followed by two EXPENSE records for the same
counterparty, 2000 each: the group total is 6000 and EXPENSE is the
strictly dominant kind, while the first record's kind is INCOME. -/
def exC6 : List Invoice :=
  [ { baseInv with
        id := "c1", type := InvoiceType.INCOME, number := "A-25-3",
        totalAmount := 2000 },
    { baseInv with
        id := "c2", type := InvoiceType.EXPENSE, number := "R-25-2",
        totalAmount := 2000 },
    { baseInv with
        id := "c3", type := InvoiceType.EXPENSE, number := "R-25-3",
        totalAmount := 2000 } ]

/-- One income of 4000 for a single counterparty, above the 347
threshold. -/
def exC6w : List Invoice :=
  [ { baseInv with
        id := "w6", nif := "B22222222", entityName := "Big Client",
        number := "A-25-4", totalAmount := 4000 } ]

/-- A record whose number is the one the sequencer proposes for INCOME in
year 25 over the empty store. -/
def exC4r : Invoice :=
  { baseInv with id := "r4", number := "A-25-1", type := InvoiceType.INCOME }

/-- An EXPENSE record, used to show INCOME numbering ignores it. -/
def exC5r : Invoice :=
  { baseInv with id := "r5", number := "R-25-9", type := InvoiceType.EXPENSE }

/-- Two INCOME records with the same document number and distinct ids. -/
def exC8a : Invoice :=
  { baseInv with id := "a1", number := "A-25-1", type := InvoiceType.INCOME }

/-- See exC8a. -/
def exC8b : Invoice :=
  { baseInv with id := "a2", number := "A-25-1", type := InvoiceType.INCOME }

/-- A stored record for the duplicate-check claim. -/
def exC10r : Invoice :=
  { baseInv with id := "a3", number := "A-25-6", type := InvoiceType.INCOME }

/-- An edit draft of exC10r: same id, kind and number, different amount. -/
def exC10d : Invoice :=
  { exC10r with baseAmount := 50 }

/-- An income record of the year whose ivaAmount is NaN. -/
def exC9r : InvoiceJS :=
  { type := InvoiceType.INCOME, dateYear := 2025, dateMonth := ⟨0, by omega⟩,
    baseAmount := JSNum.num 100, ivaAmount := JSNum.nan,
    irpfAmount := JSNum.num 0, totalAmount := JSNum.num 121,
    deductible := false }

/-- The one-record set holding exC9r. -/
def exC9 : List InvoiceJS := [exC9r]

/-- The same record with the NaN contribution replaced by zero. -/
def exC9z : List InvoiceJS :=
  [ { type := InvoiceType.INCOME, dateYear := 2025, dateMonth := ⟨0, by omega⟩,
      baseAmount := JSNum.num 100, ivaAmount := JSNum.num 0,
      irpfAmount := JSNum.num 0, totalAmount := JSNum.num 121,
      deductible := false } ]

/-
Helper lemmas about sumBy.
-/

theorem foldl_add_eq (f : Invoice → ℚ) :
    ∀ (l : List Invoice) (a : ℚ), l.foldl (fun s i => s + f i) a = a + sumBy f l
  | [], a => by simp [sumBy]
  | i :: t, a => by
    simp only [List.foldl_cons, sumBy]
    rw [foldl_add_eq f t (a + f i), foldl_add_eq f t (0 + f i)]
    ring

theorem sumBy_nil (f : Invoice → ℚ) : sumBy f [] = 0 := rfl

theorem sumBy_cons (f : Invoice → ℚ) (i : Invoice) (t : List Invoice) :
    sumBy f (i :: t) = f i + sumBy f t := by
  show (i :: t).foldl (fun s i => s + f i) 0 = f i + sumBy f t
  rw [List.foldl_cons, foldl_add_eq]
  ring

theorem sumBy_filter (f : Invoice → ℚ) (p : Invoice → Bool) :
    ∀ l : List Invoice, sumBy f (l.filter p) = sumBy (fun i => if p i then f i else 0) l
  | [] => rfl
  | i :: t => by
    by_cases h : p i
    · rw [List.filter_cons_of_pos h, sumBy_cons, sumBy_cons, if_pos h, sumBy_filter f p t]
    · rw [List.filter_cons_of_neg h, sumBy_cons, if_neg h, sumBy_filter f p t]
      ring

theorem sumBy_addf (f g : Invoice → ℚ) :
    ∀ l : List Invoice, sumBy (fun i => f i + g i) l = sumBy f l + sumBy g l
  | [] => by simp [sumBy]
  | i :: t => by
    rw [sumBy_cons, sumBy_cons, sumBy_cons, sumBy_addf f g t]
    ring

/-
The quarter windows partition the year.
-/

theorem quarterPred_eq (y q : Nat) (i : Invoice) :
    quarterPred y q i = ((i.dateYear == y) && inQuarterWindow q (i.dateMonth : Nat)) := by
  cases h : (i.dateYear == y) <;> simp [quarterPred, inQuarterWindow, h, Bool.and_assoc]

theorem window_mask (m : Nat) (hm : m < 12) (x : ℚ) :
    x = (if inQuarterWindow 1 m then x else 0) + (if inQuarterWindow 2 m then x else 0)
      + (if inQuarterWindow 3 m then x else 0) + (if inQuarterWindow 4 m then x else 0) := by
  interval_cases m <;> simp [inQuarterWindow]

theorem mask_quarters (f : Invoice → ℚ) (p : Invoice → Bool) (y : Nat) (i : Invoice) :
    (if p i && (i.dateYear == y) then f i else 0)
      = (if p i && quarterPred y 1 i then f i else 0)
        + (if p i && quarterPred y 2 i then f i else 0)
        + (if p i && quarterPred y 3 i then f i else 0)
        + (if p i && quarterPred y 4 i then f i else 0) := by
  by_cases hp : p i
  · by_cases hy : (i.dateYear == y)
    · simp only [quarterPred_eq, hy, hp, Bool.true_and, Bool.and_true]
      exact window_mask (i.dateMonth : Nat) i.dateMonth.isLt (f i)
    · simp [quarterPred_eq, hy, Bool.and_false]
  · simp [hp, Bool.false_and]

theorem sum_year_quarters (f : Invoice → ℚ) (p : Invoice → Bool) (l : List Invoice) (y : Nat) :
    sumBy f ((yearInvoices l y).filter p)
      = sumBy f ((quarterInvoices l y 1).filter p)
        + sumBy f ((quarterInvoices l y 2).filter p)
        + sumBy f ((quarterInvoices l y 3).filter p)
        + sumBy f ((quarterInvoices l y 4).filter p) := by
  unfold yearInvoices quarterInvoices
  rw [List.filter_filter, List.filter_filter, List.filter_filter, List.filter_filter,
    List.filter_filter]
  rw [sumBy_filter, sumBy_filter, sumBy_filter, sumBy_filter, sumBy_filter]
  rw [← sumBy_addf, ← sumBy_addf, ← sumBy_addf]
  exact congrArg (fun g => sumBy g l) (funext (fun i => mask_quarters f p y i))

/-
Quarterly partition of each annual aggregate.
-/

theorem ivaDevengado_quarters (inv : List Invoice) (y : Nat) :
    ivaDevengado inv y
      = devengadoQ inv y 1 + devengadoQ inv y 2 + devengadoQ inv y 3 + devengadoQ inv y 4 := by
  unfold ivaDevengado devengadoQ incomes qIncomes
  exact sum_year_quarters _ _ _ _

theorem ivaSoportado_quarters (inv : List Invoice) (y : Nat) :
    ivaSoportado inv y
      = soportadoQ inv y 1 + soportadoQ inv y 2 + soportadoQ inv y 3 + soportadoQ inv y 4 := by
  unfold ivaSoportado soportadoQ expenses qExpenses
  exact sum_year_quarters _ _ _ _

theorem totalIngresos_quarters (inv : List Invoice) (y : Nat) :
    totalIngresos inv y
      = ingresosQ inv y 1 + ingresosQ inv y 2 + ingresosQ inv y 3 + ingresosQ inv y 4 := by
  unfold totalIngresos ingresosQ incomes qIncomes
  exact sum_year_quarters _ _ _ _

theorem totalGastos_quarters (inv : List Invoice) (y : Nat) :
    totalGastos inv y
      = gastosQ inv y 1 + gastosQ inv y 2 + gastosQ inv y 3 + gastosQ inv y 4 := by
  unfold totalGastos gastosQ expenses qExpenses
  exact sum_year_quarters _ _ _ _

theorem retencionesSoportadas_quarters (inv : List Invoice) (y : Nat) :
    retencionesSoportadas inv y
      = retencionesQ inv y 1 + retencionesQ inv y 2 + retencionesQ inv y 3 + retencionesQ inv y 4 := by
  unfold retencionesSoportadas retencionesQ incomes qIncomes
  exact sum_year_quarters _ _ _ _

theorem retencionesPracticadas_quarters (inv : List Invoice) (y : Nat) :
    retencionesPracticadas inv y
      = retencionesPracticadasQ inv y 1 + retencionesPracticadasQ inv y 2
        + retencionesPracticadasQ inv y 3 + retencionesPracticadasQ inv y 4 := by
  unfold retencionesPracticadas retencionesPracticadasQ expenses qExpenses
  exact sum_year_quarters _ _ _ _

theorem rendQ_sum (inv : List Invoice) (y : Nat) :
    rendimientoNeto inv y = rendQ inv y 1 + rendQ inv y 2 + rendQ inv y 3 + rendQ inv y 4 := by
  unfold rendimientoNeto rendQ
  rw [totalIngresos_quarters, totalGastos_quarters]
  ring

theorem clamp_mul (x : ℚ) (hx : 0 ≤ x) : (if x > 0 then x * 0.20 else 0) = x * 0.20 := by
  by_cases h : x > 0
  · rw [if_pos h]
  · rw [if_neg h]
    have hx0 : x = 0 := le_antisymm (not_lt.mp h) hx
    rw [hx0]
    ring

/-- Claim C1 counterexample: with a deductible expense of 100 in Q1 and an
income of 100 in Q2, the annual model 130 result is 0 but the quarterly
results sum to 20, because the 20 percent quota is clamped at zero per
quarter while the annual quota is clamped once.  This refutes the claimed
sum-of-quarters identity for model 130. -/
theorem claim_C1_counterexample :
    resultadoIrpfAnual exC1 2025
      ≠ result130Q exC1 2025 1 + result130Q exC1 2025 2
        + result130Q exC1 2025 3 + result130Q exC1 2025 4 := by
  norm_num [resultadoIrpfAnual, pagoTeorico, rendimientoNeto, totalIngresos, totalGastos,
    retencionesSoportadas, incomes, expenses, yearInvoices, result130Q, pagoCuentaQ, rendQ,
    ingresosQ, gastosQ, retencionesQ, qIncomes, qExpenses, quarterInvoices, quarterPred,
    sumBy, exC1, baseInv, List.filter, List.foldl]

/-- Claim C1 (amended): for every record set and year, the annual model
303 result and the annual model 111 total are exactly the sums of the
four quarterly figures, unconditionally; the annual model 130 result
equals the sum of the four quarterly results provided every quarter's net
yield is nonnegative (the per-quarter clamp of the 20 percent quota at
zero otherwise breaks additivity, as the counterexample shows). -/
theorem claim_C1_amended (inv : List Invoice) (y : Nat) :
    result303 inv y
        = res303Q inv y 1 + res303Q inv y 2 + res303Q inv y 3 + res303Q inv y 4
    ∧ retencionesPracticadas inv y
        = retencionesPracticadasQ inv y 1 + retencionesPracticadasQ inv y 2
          + retencionesPracticadasQ inv y 3 + retencionesPracticadasQ inv y 4
    ∧ (0 ≤ rendQ inv y 1 → 0 ≤ rendQ inv y 2 → 0 ≤ rendQ inv y 3 → 0 ≤ rendQ inv y 4 →
        resultadoIrpfAnual inv y
          = result130Q inv y 1 + result130Q inv y 2
            + result130Q inv y 3 + result130Q inv y 4) := by
  refine ⟨?_, retencionesPracticadas_quarters inv y, ?_⟩
  · unfold result303 res303Q
    rw [ivaDevengado_quarters, ivaSoportado_quarters]
    ring
  · intro h1 h2 h3 h4
    have hrend : 0 ≤ rendimientoNeto inv y := by
      rw [rendQ_sum]
      have := add_nonneg (add_nonneg (add_nonneg h1 h2) h3) h4
      linarith
    unfold resultadoIrpfAnual result130Q pagoTeorico pagoCuentaQ
    rw [clamp_mul _ hrend, clamp_mul _ h1, clamp_mul _ h2, clamp_mul _ h3, clamp_mul _ h4]
    rw [rendQ_sum, retencionesSoportadas_quarters]
    ring

/-- Witness for claim C1 at a concrete record set whose quarterly net
yields are all nonnegative. -/
theorem claim_C1_witness :
    (0 ≤ rendQ exC1w 2025 1 ∧ 0 ≤ rendQ exC1w 2025 2
      ∧ 0 ≤ rendQ exC1w 2025 3 ∧ 0 ≤ rendQ exC1w 2025 4)
    ∧ (result303 exC1w 2025
        = res303Q exC1w 2025 1 + res303Q exC1w 2025 2 + res303Q exC1w 2025 3 + res303Q exC1w 2025 4
      ∧ retencionesPracticadas exC1w 2025
        = retencionesPracticadasQ exC1w 2025 1 + retencionesPracticadasQ exC1w 2025 2
          + retencionesPracticadasQ exC1w 2025 3 + retencionesPracticadasQ exC1w 2025 4
      ∧ resultadoIrpfAnual exC1w 2025
        = result130Q exC1w 2025 1 + result130Q exC1w 2025 2
          + result130Q exC1w 2025 3 + result130Q exC1w 2025 4) := by
  have h1 : 0 ≤ rendQ exC1w 2025 1 := by
    norm_num [rendQ, ingresosQ, gastosQ, qIncomes, qExpenses, quarterInvoices, quarterPred,
      sumBy, exC1w, baseInv, List.filter, List.foldl]
  have h2 : 0 ≤ rendQ exC1w 2025 2 := by
    norm_num [rendQ, ingresosQ, gastosQ, qIncomes, qExpenses, quarterInvoices, quarterPred,
      sumBy, exC1w, baseInv, List.filter, List.foldl]
  have h3 : 0 ≤ rendQ exC1w 2025 3 := by
    norm_num [rendQ, ingresosQ, gastosQ, qIncomes, qExpenses, quarterInvoices, quarterPred,
      sumBy, exC1w, baseInv, List.filter, List.foldl]
  have h4 : 0 ≤ rendQ exC1w 2025 4 := by
    norm_num [rendQ, ingresosQ, gastosQ, qIncomes, qExpenses, quarterInvoices, quarterPred,
      sumBy, exC1w, baseInv, List.filter, List.foldl]
  exact ⟨⟨h1, h2, h3, h4⟩,
    (claim_C1_amended exC1w 2025).1,
    (claim_C1_amended exC1w 2025).2.1,
    (claim_C1_amended exC1w 2025).2.2 h1 h2 h3 h4⟩

/-
NaN propagation through the aggregation sums.
-/

theorem JSNum.add_nan (a : JSNum) : JSNum.add a JSNum.nan = JSNum.nan := by
  cases a <;> rfl

theorem JSNum.nan_add (a : JSNum) : JSNum.add JSNum.nan a = JSNum.nan := by
  cases a <;> rfl

theorem JSNum.nan_sub (a : JSNum) : JSNum.sub JSNum.nan a = JSNum.nan := by
  cases a <;> rfl

theorem foldl_js_nan (f : InvoiceJS → JSNum) :
    ∀ l : List InvoiceJS, l.foldl (fun s i => JSNum.add s (f i)) JSNum.nan = JSNum.nan
  | [] => rfl
  | i :: t => by
    rw [List.foldl_cons]
    show t.foldl _ (JSNum.add JSNum.nan (f i)) = _
    rw [JSNum.nan_add]
    exact foldl_js_nan f t

theorem foldl_js_nan_mem (f : InvoiceJS → JSNum) :
    ∀ (l : List InvoiceJS) (a : JSNum), (∃ i ∈ l, f i = JSNum.nan) →
      l.foldl (fun s i => JSNum.add s (f i)) a = JSNum.nan
  | [], _, h => by simp at h
  | j :: t, a, h => by
    rcases h with ⟨i, hi, hf⟩
    rw [List.foldl_cons]
    rcases List.mem_cons.mp hi with rfl | hit
    · rw [hf, JSNum.add_nan]
      exact foldl_js_nan f t
    · exact foldl_js_nan_mem f t _ ⟨i, hit, hf⟩

theorem sumByJS_nan (f : InvoiceJS → JSNum) (l : List InvoiceJS) (i : InvoiceJS)
    (hi : i ∈ l) (hf : f i = JSNum.nan) : sumByJS f l = JSNum.nan :=
  foldl_js_nan_mem f l (JSNum.num 0) ⟨i, hi, hf⟩

/-- Claim C9 counterexample: a single income record of the year with
ivaAmount NaN makes the output-VAT total NaN, which is non-finite and
differs from the total obtained by replacing that contribution with
zero.  The aggregator has no finiteness guard. -/
theorem claim_C9_counterexample :
    ivaDevengadoJS exC9 2025 = JSNum.nan
    ∧ ivaDevengadoJS exC9z 2025 = JSNum.num 0
    ∧ (JSNum.nan).isFinite = false
    ∧ JSNum.nan ≠ JSNum.num 0 := by
  refine ⟨rfl, ?_, rfl, by simp⟩
  norm_num [ivaDevengadoJS, sumByJS, incomesJS, yearInvoicesJS, exC9z, JSNum.add,
    List.filter, List.foldl]

/-- Claim C9 (amended): the aggregation sums contain no finiteness
filtering, so a non-finite numeric field propagates: if any income record
of the selected year carries a NaN ivaAmount, the output-VAT total and
the model 303 result are NaN (non-finite) rather than the
contribution-replaced-by-zero totals the claim describes. -/
theorem claim_C9_amended (inv : List InvoiceJS) (y : Nat) (i : InvoiceJS)
    (hi : i ∈ inv) (hy : i.dateYear = y) (ht : i.type = InvoiceType.INCOME)
    (hf : i.ivaAmount = JSNum.nan) :
    ivaDevengadoJS inv y = JSNum.nan
    ∧ result303JS inv y = JSNum.nan
    ∧ (ivaDevengadoJS inv y).isFinite = false := by
  have hmem : i ∈ incomesJS inv y := by
    unfold incomesJS yearInvoicesJS
    rw [List.mem_filter, List.mem_filter]
    refine ⟨⟨hi, ?_⟩, ?_⟩
    · simp [hy]
    · simp [ht]
  have hdev : ivaDevengadoJS inv y = JSNum.nan :=
    sumByJS_nan _ _ i hmem hf
  refine ⟨hdev, ?_, by rw [hdev]; rfl⟩
  unfold result303JS
  rw [hdev, JSNum.nan_sub]

/-- Witness for claim C9 at the concrete one-record set with a NaN VAT
amount. -/
theorem claim_C9_witness :
    ((exC9r ∈ exC9) ∧ exC9r.dateYear = 2025
      ∧ exC9r.type = InvoiceType.INCOME ∧ exC9r.ivaAmount = JSNum.nan)
    ∧ (ivaDevengadoJS exC9 2025 = JSNum.nan
      ∧ result303JS exC9 2025 = JSNum.nan
      ∧ (ivaDevengadoJS exC9 2025).isFinite = false) :=
  ⟨⟨by simp [exC9], rfl, rfl, rfl⟩,
    claim_C9_amended exC9 2025 exC9r (by simp [exC9]) rfl rfl rfl⟩

/-
Tax-id validation.
-/

/-- Claim C3 counterexample: the empty string matches none of the three
shapes, yet validateSpanishID returns valid, because the guard
if (!value) return null short-circuits falsy input; the claim demands
unrecognizedFormat and in particular that such an input is never valid. -/
theorem claim_C3_counterexample :
    nifTest (normChars "") = false ∧ nieTest (normChars "") = false
    ∧ cifTest (normChars "") = false
    ∧ validateSpanishID "" = ValidationResult.valid := by decide

/-- Claim C3 (amended): for every non-empty input whose upper-cased and
trimmed form matches none of the three recognized shapes, validate returns
unrecognizedFormat; the empty string alone is short-circuited to the
no-error result by the falsy-input guard. -/
theorem claim_C3_amended (value : String) (h0 : value ≠ "")
    (h1 : nifTest (normChars value) = false) (h2 : nieTest (normChars value) = false)
    (h3 : cifTest (normChars value) = false) :
    validateSpanishID value = ValidationResult.unrecognizedFormat := by
  simp [validateSpanishID, h0, h1, h2, h3]

/-- Witness for claim C3 at a concrete unrecognized input. -/
theorem claim_C3_witness :
    ("HELLO" ≠ "" ∧ nifTest (normChars "HELLO") = false
      ∧ nieTest (normChars "HELLO") = false ∧ cifTest (normChars "HELLO") = false)
    ∧ validateSpanishID "HELLO" = ValidationResult.unrecognizedFormat :=
  ⟨⟨by decide, by decide, by decide, by decide⟩,
    claim_C3_amended "HELLO" (by decide) (by decide) (by decide) (by decide)⟩

/-- Claim C2: on every input whose normalized form is DNI-shaped (8 digits
and a final letter) or NIE-shaped (X, Y or Z, 7 digits and a final
letter), validate returns valid exactly when the final letter equals
TABLE[number mod 23] over TRWAGMYFPDXBNJZSQVHLCKE, where the number is
read from the 8 digits, or, for NIE, from the 7 digits prefixed by 0, 1
or 2 according to the leading X, Y or Z; on a mismatch it returns
invalidChecksum carrying that expected letter. -/
theorem claim_C2 (value : String)
    (h : nifTest (normChars value) = true ∨ nieTest (normChars value) = true) :
    (validateSpanishID value = ValidationResult.valid
      ↔ (normChars value).getD 8 ' '
          = (if nifTest (normChars value) then checkLetter (dniNumber (normChars value))
             else checkLetter (nieNumber (normChars value))))
    ∧ ((normChars value).getD 8 ' '
          ≠ (if nifTest (normChars value) then checkLetter (dniNumber (normChars value))
             else checkLetter (nieNumber (normChars value)))
        → validateSpanishID value
            = ValidationResult.invalidChecksum
                (if nifTest (normChars value) then checkLetter (dniNumber (normChars value))
                 else checkLetter (nieNumber (normChars value)))) := by
  have hne : value ≠ "" := by
    intro he
    subst he
    rcases h with h | h
    · exact absurd h (by decide)
    · exact absurd h (by decide)
  by_cases hn : nifTest (normChars value)
  · simp only [validateSpanishID, if_neg hne, hn, if_true]
    by_cases he : (normChars value).getD 8 ' ' = checkLetter (dniNumber (normChars value))
    · simp [he]
    · simp [he]
  · have hnie : nieTest (normChars value) = true := by
      rcases h with h | h
      · exact absurd h hn
      · exact h
    simp only [validateSpanishID, if_neg hne, hn, hnie, if_false, if_true, Bool.false_eq_true]
    by_cases he : (normChars value).getD 8 ' ' = checkLetter (nieNumber (normChars value))
    · simp [he]
    · simp [he]

/-- Witness for claim C2 at the valid DNI 12345678Z. -/
theorem claim_C2_witness :
    (nifTest (normChars "12345678Z") = true ∨ nieTest (normChars "12345678Z") = true)
    ∧ ((validateSpanishID "12345678Z" = ValidationResult.valid
        ↔ (normChars "12345678Z").getD 8 ' '
            = (if nifTest (normChars "12345678Z")
               then checkLetter (dniNumber (normChars "12345678Z"))
               else checkLetter (nieNumber (normChars "12345678Z"))))
      ∧ ((normChars "12345678Z").getD 8 ' '
            ≠ (if nifTest (normChars "12345678Z")
               then checkLetter (dniNumber (normChars "12345678Z"))
               else checkLetter (nieNumber (normChars "12345678Z")))
          → validateSpanishID "12345678Z"
              = ValidationResult.invalidChecksum
                  (if nifTest (normChars "12345678Z")
                   then checkLetter (dniNumber (normChars "12345678Z"))
                   else checkLetter (nieNumber (normChars "12345678Z"))))) :=
  ⟨Or.inl (by decide), claim_C2 "12345678Z" (Or.inl (by decide))⟩

/-
Decimal rendering and parsing round-trip.
-/

theorem digitChar_toNat (n : Nat) (h : n < 10) : (digitChar n).toNat - 48 = n := by
  interval_cases n <;> decide

theorem digitChar_isDigit (n : Nat) (h : n < 10) : (digitChar n).isDigit = true := by
  interval_cases n <;> decide

theorem digitsToNat_append (xs : List Char) (c : Char) :
    digitsToNat (xs ++ [c]) = digitsToNat xs * 10 + (c.toNat - 48) := by
  unfold digitsToNat
  rw [List.foldl_append]
  rfl

theorem fuel_step (fuel n : Nat) (hf : n < fuel + 1) (h10 : ¬n < 10) : n / 10 < fuel :=
  lt_of_lt_of_le (Nat.div_lt_self (by omega) (by omega)) (by omega)

theorem digitsToNat_toDecimalAux :
    ∀ (fuel n : Nat), n < fuel → digitsToNat (toDecimalAux fuel n) = n
  | 0, n, h => absurd h (Nat.not_lt_zero n)
  | fuel + 1, n, h => by
    show digitsToNat
      (if n < 10 then [digitChar n]
       else toDecimalAux fuel (n / 10) ++ [digitChar (n % 10)]) = n
    by_cases h10 : n < 10
    · rw [if_pos h10]
      show List.foldl _ 0 [digitChar n] = n
      simp only [List.foldl_cons, List.foldl_nil]
      have := digitChar_toNat n h10
      omega
    · rw [if_neg h10, digitsToNat_append,
        digitsToNat_toDecimalAux fuel (n / 10) (fuel_step fuel n h h10),
        digitChar_toNat (n % 10) (Nat.mod_lt n (by omega))]
      omega

theorem digitsToNat_toDecimal (n : Nat) : digitsToNat (toDecimal n) = n :=
  digitsToNat_toDecimalAux (n + 1) n (Nat.lt_succ_self n)

theorem toDecimalAux_all_digit :
    ∀ (fuel n : Nat), n < fuel → (toDecimalAux fuel n).all (fun d => d.isDigit) = true
  | 0, n, h => absurd h (Nat.not_lt_zero n)
  | fuel + 1, n, h => by
    show List.all
      (if n < 10 then [digitChar n]
       else toDecimalAux fuel (n / 10) ++ [digitChar (n % 10)]) _ = true
    by_cases h10 : n < 10
    · rw [if_pos h10]
      simp [digitChar_isDigit n h10]
    · rw [if_neg h10, List.all_append]
      simp [toDecimalAux_all_digit fuel (n / 10) (fuel_step fuel n h h10),
        digitChar_isDigit (n % 10) (Nat.mod_lt n (by omega))]

theorem toDecimal_all_digit (n : Nat) : (toDecimal n).all (fun d => d.isDigit) = true :=
  toDecimalAux_all_digit (n + 1) n (Nat.lt_succ_self n)

theorem toDecimal_isEmpty (n : Nat) : (toDecimal n).isEmpty = false := by
  show List.isEmpty
    (if n < 10 then [digitChar n]
     else toDecimalAux n (n / 10) ++ [digitChar (n % 10)]) = false
  by_cases h : n < 10
  · rw [if_pos h]
    rfl
  · rw [if_neg h]
    simp [List.isEmpty_iff]

theorem parseSeq_format (pre : Char) (yy : List Char) (n : Nat) :
    parseSeq pre yy (formatNumber pre yy n).data = some n := by
  show parseSeq pre yy (pre :: '-' :: (yy ++ '-' :: toDecimal n)) = some n
  have hsplit : pre :: '-' :: (yy ++ '-' :: toDecimal n) = seqHead pre yy ++ toDecimal n := by
    simp [seqHead]
  rw [hsplit]
  unfold parseSeq
  rw [List.take_left, List.drop_left]
  simp [toDecimal_isEmpty, toDecimal_all_digit, digitsToNat_toDecimal]

theorem parseSeq_format_other_year (pre : Char) (yy yy2 : List Char) (k : Nat)
    (hlen : yy2.length = yy.length) (hne : yy2 ≠ yy) :
    parseSeq pre yy (formatNumber pre yy2 k).data = none := by
  show parseSeq pre yy (pre :: '-' :: (yy2 ++ '-' :: toDecimal k)) = none
  have hsplit : pre :: '-' :: (yy2 ++ '-' :: toDecimal k) = seqHead pre yy2 ++ toDecimal k := by
    simp [seqHead]
  rw [hsplit]
  unfold parseSeq
  have hlen2 : (seqHead pre yy2).length = (seqHead pre yy).length := by
    simp [seqHead, hlen]
  rw [List.take_left' hlen2]
  have hheads : seqHead pre yy2 ≠ seqHead pre yy := by
    intro hcontra
    apply hne
    have h2 : yy2 ++ ['-'] = yy ++ ['-'] := by
      simpa [seqHead] using hcontra
    exact List.append_cancel_right h2
  simp [hheads]

/-
Properties of the running-maximum fold of calculateNextNumber.
-/

theorem foldl_step_ge (t : InvoiceType) (yy : List Char) :
    ∀ (l : List Invoice) (a : Nat),
      a ≤ l.foldl (fun mx i =>
        match parseSeq (prefixChar t) yy i.number.data with
        | some n => max mx n
        | none => mx) a
  | [], a => le_refl a
  | i :: l, a => by
    rw [List.foldl_cons]
    refine le_trans ?_ (foldl_step_ge t yy l _)
    cases hp : parseSeq (prefixChar t) yy i.number.data
    · simp [hp]
    · simp [hp, le_max_left]

theorem foldl_step_mem_le (t : InvoiceType) (yy : List Char) :
    ∀ (l : List Invoice) (a : Nat) (i : Invoice) (n : Nat), i ∈ l →
      parseSeq (prefixChar t) yy i.number.data = some n →
      n ≤ l.foldl (fun mx i =>
        match parseSeq (prefixChar t) yy i.number.data with
        | some n => max mx n
        | none => mx) a
  | [], _, _, _, h, _ => absurd h (List.not_mem_nil _)
  | j :: l, a, i, n, h, hp => by
    rw [List.foldl_cons]
    rcases List.mem_cons.mp h with rfl | hmem
    · simp only [hp]
      exact le_trans (le_max_right a n) (foldl_step_ge t yy l _)
    · exact foldl_step_mem_le t yy l _ i n hmem hp

theorem maxSeqOf_le (inv : List Invoice) (t : InvoiceType) (yy : List Char)
    (i : Invoice) (n : Nat) (hi : i ∈ inv) (ht : i.type = t)
    (hp : parseSeq (prefixChar t) yy i.number.data = some n) : n ≤ maxSeqOf inv t yy := by
  unfold maxSeqOf
  refine foldl_step_mem_le t yy _ 0 i n ?_ hp
  unfold relevantInvoices
  rw [List.mem_filter]
  exact ⟨hi, by simp [ht, hp]⟩

theorem maxSeqOf_append_match (inv : List Invoice) (t : InvoiceType) (yy : List Char)
    (r : Invoice) (n : Nat) (ht : r.type = t)
    (hp : parseSeq (prefixChar t) yy r.number.data = some n) :
    maxSeqOf (inv ++ [r]) t yy = max (maxSeqOf inv t yy) n := by
  unfold maxSeqOf relevantInvoices
  rw [List.filter_append]
  have hr : List.filter
      (fun i => i.type == t && (parseSeq (prefixChar t) yy i.number.data).isSome) [r] = [r] := by
    simp [List.filter, ht, hp]
  rw [hr, List.foldl_append, List.foldl_cons, List.foldl_nil]
  simp [hp]

theorem maxSeqOf_append_nomatch (inv : List Invoice) (t : InvoiceType) (yy : List Char)
    (r : Invoice)
    (h : r.type ≠ t ∨ parseSeq (prefixChar t) yy r.number.data = none) :
    maxSeqOf (inv ++ [r]) t yy = maxSeqOf inv t yy := by
  unfold maxSeqOf relevantInvoices
  rw [List.filter_append]
  have hr : List.filter
      (fun i => i.type == t && (parseSeq (prefixChar t) yy i.number.data).isSome) [r] = [] := by
    rcases h with h | h
    · have hbeq : (r.type == t) = false := by
        rw [beq_eq_false_iff_ne]
        exact h
      simp [List.filter, hbeq]
    · simp [List.filter, h]
  rw [hr, List.append_nil]

theorem maxSeqOf_matchless (inv : List Invoice) (t : InvoiceType) (yy : List Char)
    (h : ∀ i ∈ inv,
      ¬(i.type = t ∧ (parseSeq (prefixChar t) yy i.number.data).isSome = true)) :
    maxSeqOf inv t yy = 0 := by
  unfold maxSeqOf relevantInvoices
  have hnil : List.filter
      (fun i => i.type == t && (parseSeq (prefixChar t) yy i.number.data).isSome) inv = [] := by
    rw [List.filter_eq_nil_iff]
    intro a ha hcontra
    rw [Bool.and_eq_true, beq_iff_eq] at hcontra
    exact h a ha ⟨hcontra.1, hcontra.2⟩
  rw [hnil]
  rfl

/-- Claim C4: nextNumber is idempotent (a pure projection of the snapshot,
so two calls on the same snapshot coincide) and monotonic: it always
returns the pattern at suffix maxSeq + 1, and after inserting a record of
the requested kind carrying the returned number, the next call returns the
same pattern with the suffix increased by exactly one. -/
theorem claim_C4 (inv : List Invoice) (t : InvoiceType) (yy : List Char) (r : Invoice)
    (h1 : r.type = t) (h2 : r.number = calculateNextNumber inv t yy) :
    calculateNextNumber inv t yy = calculateNextNumber inv t yy
    ∧ calculateNextNumber inv t yy = formatNumber (prefixChar t) yy (maxSeqOf inv t yy + 1)
    ∧ calculateNextNumber (inv ++ [r]) t yy
        = formatNumber (prefixChar t) yy (maxSeqOf inv t yy + 1 + 1) := by
  refine ⟨rfl, rfl, ?_⟩
  have hp : parseSeq (prefixChar t) yy r.number.data = some (maxSeqOf inv t yy + 1) := by
    rw [h2]
    exact parseSeq_format _ _ _
  unfold calculateNextNumber
  rw [maxSeqOf_append_match inv t yy r _ h1 hp, max_eq_right (Nat.le_succ _)]

/-- Witness for claim C4: over the empty store the sequencer proposes
A-25-1 for INCOME in year 25, and after inserting a record carrying that
number the proposal moves to suffix 2. -/
theorem claim_C4_witness :
    (exC4r.type = InvoiceType.INCOME
      ∧ exC4r.number = calculateNextNumber [] InvoiceType.INCOME ['2', '5'])
    ∧ calculateNextNumber ([] ++ [exC4r]) InvoiceType.INCOME ['2', '5']
        = formatNumber (prefixChar InvoiceType.INCOME) ['2', '5']
            (maxSeqOf [] InvoiceType.INCOME ['2', '5'] + 1 + 1) :=
  ⟨⟨rfl, by decide⟩,
    (claim_C4 [] InvoiceType.INCOME ['2', '5'] exC4r rfl (by decide)).2.2⟩

/-- Claim C5: nextNumber returns the pattern at suffix maxSeq + 1, where
maxSeq ranges over the records of the requested kind whose documentNumber
matches the anchored pattern for the requested two-digit year; when no
record matches it returns suffix 1; every matching record's suffix is
bounded by maxSeq; and appending a record of the other kind, or one whose
number does not match the pattern (in particular one formatted for a
different two-digit year), never changes the result. -/
theorem claim_C5 (inv : List Invoice) (t : InvoiceType) (yy : List Char) (r : Invoice)
    (yy2 : List Char) (k : Nat) :
    calculateNextNumber inv t yy = formatNumber (prefixChar t) yy (maxSeqOf inv t yy + 1)
    ∧ ((∀ i ∈ inv,
          ¬(i.type = t ∧ (parseSeq (prefixChar t) yy i.number.data).isSome = true))
        → calculateNextNumber inv t yy = formatNumber (prefixChar t) yy 1)
    ∧ (∀ i ∈ inv, ∀ n : Nat, i.type = t →
        parseSeq (prefixChar t) yy i.number.data = some n → n ≤ maxSeqOf inv t yy)
    ∧ ((r.type ≠ t ∨ parseSeq (prefixChar t) yy r.number.data = none)
        → calculateNextNumber (inv ++ [r]) t yy = calculateNextNumber inv t yy)
    ∧ (yy2.length = yy.length → yy2 ≠ yy
        → parseSeq (prefixChar t) yy (formatNumber (prefixChar t) yy2 k).data = none) := by
  refine ⟨rfl, ?_, ?_, ?_, ?_⟩
  · intro h
    unfold calculateNextNumber
    rw [maxSeqOf_matchless inv t yy h]
  · intro i hi n ht hp
    exact maxSeqOf_le inv t yy i n hi ht hp
  · intro h
    unfold calculateNextNumber
    rw [maxSeqOf_append_nomatch inv t yy r h]
  · intro hlen hne
    exact parseSeq_format_other_year (prefixChar t) yy yy2 k hlen hne

/-- Witness for claim C5: over the empty store the INCOME proposal for
year 25 is the pattern at suffix 1; appending the EXPENSE record R-25-9
leaves the INCOME proposal unchanged; and a number formatted for year 24
does not match the year-25 pattern. -/
theorem claim_C5_witness :
    calculateNextNumber [] InvoiceType.INCOME ['2', '5']
        = formatNumber (prefixChar InvoiceType.INCOME) ['2', '5'] 1
    ∧ calculateNextNumber ([] ++ [exC5r]) InvoiceType.INCOME ['2', '5']
        = calculateNextNumber [] InvoiceType.INCOME ['2', '5']
    ∧ parseSeq (prefixChar InvoiceType.INCOME) ['2', '5']
        (formatNumber (prefixChar InvoiceType.INCOME) ['2', '4'] 9).data = none :=
  ⟨((claim_C5 [] InvoiceType.INCOME ['2', '5'] exC5r ['2', '4'] 9).2.1 (by decide)),
    ((claim_C5 [] InvoiceType.INCOME ['2', '5'] exC5r ['2', '4'] 9).2.2.2.1
      (Or.inl (by decide))),
    ((claim_C5 [] InvoiceType.INCOME ['2', '5'] exC5r ['2', '4'] 9).2.2.2.2
      (by decide) (by decide))⟩

/-
The duplicate-number check of handleSubmit.
-/

theorem duplicateExists_iff (invoices : List Invoice) (draft : Invoice) :
    duplicateExists invoices draft = true
      ↔ ∃ i ∈ invoices, i.number = draft.number ∧ i.type = draft.type ∧ i.id ≠ draft.id := by
  unfold duplicateExists
  rw [Option.isSome_iff_exists]
  constructor
  · rintro ⟨i, hfind⟩
    have hmem := List.mem_of_find?_eq_some hfind
    have hpred := List.find?_some hfind
    rw [Bool.and_eq_true, Bool.and_eq_true, beq_iff_eq, beq_iff_eq, bne_iff_ne] at hpred
    exact ⟨i, hmem, hpred.1.1, hpred.1.2, hpred.2⟩
  · rintro ⟨i, hmem, hnum, htyp, hid⟩
    have : (invoices.find? (fun i =>
        i.number == draft.number && i.type == draft.type && i.id != draft.id)).isSome := by
      rw [List.find?_isSome]
      exact ⟨i, hmem, by simp [hnum, htyp, bne_iff_ne, hid]⟩
    rw [Option.isSome_iff_exists] at this
    exact this

/-- Claim C10: the duplicate check compares the draft against every stored
record except the one carrying the draft's own id; any save, create or
edit, whose kind and number match a different stored record is rejected,
and an edit whose kind and number are matched only by the record with the
draft's own id passes the check. -/
theorem claim_C10 (invoices : List Invoice) (draft : Invoice) :
    (duplicateExists invoices draft = true
      ↔ ∃ i ∈ invoices, i.number = draft.number ∧ i.type = draft.type ∧ i.id ≠ draft.id)
    ∧ (∀ isEdit : Bool,
        (∃ i ∈ invoices, i.number = draft.number ∧ i.type = draft.type ∧ i.id ≠ draft.id)
        → handleSubmit invoices draft isEdit = none)
    ∧ ((∀ i ∈ invoices, i.id = draft.id ∨ ¬(i.number = draft.number ∧ i.type = draft.type))
        → handleSubmit invoices draft true ≠ none) := by
  refine ⟨duplicateExists_iff invoices draft, ?_, ?_⟩
  · intro isEdit h
    unfold handleSubmit
    rw [if_pos ((duplicateExists_iff invoices draft).mpr h)]
  · intro h
    have hdup : duplicateExists invoices draft = false := by
      rw [Bool.eq_false_iff]
      intro hcontra
      rcases (duplicateExists_iff invoices draft).mp hcontra with ⟨i, hmem, hnum, htyp, hid⟩
      rcases h i hmem with hsame | hnot
      · exact hid hsame
      · exact hnot ⟨hnum, htyp⟩
    unfold handleSubmit
    rw [hdup]
    simp

/-- Witness for claim C10: a store holding one record, and an edit draft of
that record keeping its id, kind and number; the check accepts the edit. -/
theorem claim_C10_witness :
    (∀ i ∈ [exC10r], i.id = exC10d.id ∨ ¬(i.number = exC10d.number ∧ i.type = exC10d.type))
    ∧ handleSubmit [exC10r] exC10d true ≠ none :=
  ⟨by
    intro i hi
    rw [List.mem_singleton] at hi
    subst hi
    exact Or.inl rfl,
   (claim_C10 [exC10r] exC10d).2.2 (by
    intro i hi
    rw [List.mem_singleton] at hi
    subst hi
    exact Or.inl rfl)⟩

/-
Reachability of duplicate numbers through bulk import, and preservation of
uniqueness on the single-save path.
-/

/-- Claim C8 counterexample: importing two records with the same kind and
document number through handleBulkImport, which performs no duplicate
check, reaches a store state violating the uniqueness invariant. -/
theorem claim_C8_counterexample :
    Reachable [exC8a, exC8b]
    ∧ exC8a.type = exC8b.type ∧ exC8a.number = exC8b.number ∧ exC8a.id ≠ exC8b.id
    ∧ ¬UniqueKindNumber [exC8a, exC8b] := by
  refine ⟨?_, rfl, rfl, by decide, ?_⟩
  · have h := Reachable.bulkImport [exC8a, exC8b] Reachable.empty
    simpa [handleBulkImport] using h
  · intro hu
    unfold UniqueKindNumber at hu
    rcases List.pairwise_cons.mp hu with ⟨hforall, _⟩
    exact hforall exC8b (List.mem_singleton_self _) ⟨rfl, rfl⟩

theorem handleSubmit_no_dup (s : List Invoice) (d : Invoice) (e : Bool)
    (s' : List Invoice) (h : handleSubmit s d e = some s') :
    duplicateExists s d = false := by
  by_cases hdup : duplicateExists s d
  · unfold handleSubmit at h
    rw [if_pos hdup] at h
    exact absurd h (by simp)
  · exact Bool.eq_false_iff.mpr hdup

theorem no_dup_forall (s : List Invoice) (d : Invoice)
    (h : duplicateExists s d = false) :
    ∀ i ∈ s, ¬(i.number = d.number ∧ i.type = d.type ∧ i.id ≠ d.id) := by
  intro i hi hcontra
  have : duplicateExists s d = true :=
    (duplicateExists_iff s d).mpr ⟨i, hi, hcontra⟩
  rw [this] at h
  exact absurd h (by simp)

/-- Claim C8 (amended): the uniqueness of (kind, documentNumber) is
enforced by the single-save path only.  Every store state reachable
through handleSubmit creates (with fresh ids), edits and deletes has
pairwise-distinct ids and pairwise-distinct (kind, number); the bulk
importer appends parsed records with no duplicate check, so the
invariant does not extend to it, as the counterexample shows. -/
theorem claim_C8_amended (s : List Invoice) (h : GuardedReachable s) :
    UniqueIds s ∧ UniqueKindNumber s := by
  induction h with
  | empty =>
    constructor
    · exact List.Pairwise.nil
    · exact List.Pairwise.nil
  | @create s s' d hr hfresh hsub ih =>
    have hdup := handleSubmit_no_dup s d false s' hsub
    have hs' : s' = s ++ [d] := by
      unfold handleSubmit at hsub
      rw [hdup] at hsub
      simpa using hsub.symm
    subst hs'
    have hdupf := no_dup_forall s d hdup
    constructor
    · unfold UniqueIds
      rw [List.map_append, List.nodup_append]
      refine ⟨ih.1, by simp, ?_⟩
      intro a ha hb
      rw [List.map_cons, List.map_nil, List.mem_singleton] at hb
      rcases List.mem_map.mp ha with ⟨i, hi, hid⟩
      exact hfresh i hi (hid.trans hb)
    · unfold UniqueKindNumber
      rw [List.pairwise_append]
      refine ⟨ih.2, List.pairwise_singleton _ _, ?_⟩
      intro i hi b hb
      rw [List.mem_singleton] at hb
      subst hb
      intro hcontra
      exact hdupf i hi ⟨hcontra.2, hcontra.1, hfresh i hi⟩
  | @edit s s' d hr hsub ih =>
    have hdup := handleSubmit_no_dup s d true s' hsub
    have hs' : s' = s.map (fun inv => if inv.id == d.id then d else inv) := by
      unfold handleSubmit at hsub
      rw [hdup] at hsub
      simpa using hsub.symm
    subst hs'
    have hdupf := no_dup_forall s d hdup
    have hidmap : ∀ i : Invoice, (if i.id == d.id then d else i).id = i.id := by
      intro i
      by_cases hc : i.id == d.id
      · rw [if_pos hc]
        exact (beq_iff_eq.mp hc).symm
      · rw [if_neg hc]
    have hid : s.Pairwise (fun a b => a.id ≠ b.id) := by
      have h1 := ih.1
      unfold UniqueIds at h1
      unfold List.Nodup at h1
      rw [List.pairwise_map] at h1
      exact h1
    constructor
    · unfold UniqueIds
      rw [List.map_map]
      unfold List.Nodup
      rw [List.pairwise_map]
      refine hid.imp_of_mem ?_
      intro a b _ _ hne
      simp only [Function.comp]
      rw [hidmap a, hidmap b]
      exact hne
    · unfold UniqueKindNumber
      rw [List.pairwise_map]
      have hcomb := (ih.2).and hid
      refine hcomb.imp_of_mem ?_
      intro a b ha hb hab hcontra
      rcases hab with ⟨hR, hne⟩
      by_cases haid : a.id == d.id <;> by_cases hbid : b.id == d.id
      · exact hne ((beq_iff_eq.mp haid).trans (beq_iff_eq.mp hbid).symm)
      · rw [if_pos haid, if_neg hbid] at hcontra
        refine hdupf b hb ⟨hcontra.2.symm, hcontra.1.symm, ?_⟩
        intro hbd
        exact hbid (beq_iff_eq.mpr hbd)
      · rw [if_neg haid, if_pos hbid] at hcontra
        refine hdupf a ha ⟨hcontra.2, hcontra.1, ?_⟩
        intro had
        exact haid (beq_iff_eq.mpr had)
      · rw [if_neg haid, if_neg hbid] at hcontra
        exact hR hcontra
  | @deleteOne s did hr ih =>
    constructor
    · unfold UniqueIds
      exact ((List.filter_sublist s).map _).nodup ih.1
    · unfold UniqueKindNumber
      exact (ih.2).sublist (List.filter_sublist s)

/-- Witness for claim C8 at the empty (trivially reachable) store. -/
theorem claim_C8_witness : UniqueIds ([] : List Invoice) ∧ UniqueKindNumber [] :=
  claim_C8_amended [] GuardedReachable.empty

/-
The desglose fold: rate keys stay distinct, quotas accumulate the VAT sum,
and every entry originates from an expense.
-/

theorem rateUpd_rate (i : Invoice) (e : RateEntry) :
    (if e.rate == i.ivaRate then
      { e with base := e.base + i.baseAmount, quota := e.quota + i.ivaAmount }
     else e).rate = e.rate := by
  by_cases hc : e.rate == i.ivaRate
  · rw [if_pos hc]
  · rw [if_neg hc]

theorem addRate_keys_nodup (acc : List RateEntry) (i : Invoice)
    (h : (acc.map (fun e => e.rate)).Nodup) :
    ((addRate acc i).map (fun e => e.rate)).Nodup := by
  unfold addRate
  by_cases hc : acc.any (fun e => e.rate == i.ivaRate)
  · rw [if_pos hc, List.map_map]
    have heq : ((fun e : RateEntry => e.rate) ∘ fun e =>
        if e.rate == i.ivaRate then
          { e with base := e.base + i.baseAmount, quota := e.quota + i.ivaAmount }
        else e) = fun e : RateEntry => e.rate := by
      funext e
      exact rateUpd_rate i e
    rw [heq]
    exact h
  · rw [if_neg hc, List.map_append, List.nodup_append]
    refine ⟨h, by simp, ?_⟩
    intro a ha hb
    rw [List.map_cons, List.map_nil, List.mem_singleton] at hb
    rcases List.mem_map.mp ha with ⟨e, he, hr⟩
    rw [Bool.not_eq_true, List.any_eq_false] at hc
    exact hc e he (beq_iff_eq.mpr (hr.trans hb))

theorem quota_sum_update (i : Invoice) :
    ∀ (acc : List RateEntry),
      (acc.map (fun e => e.rate)).Nodup →
      acc.any (fun e => e.rate == i.ivaRate) = true →
      ((acc.map (fun e =>
          if e.rate == i.ivaRate then
            { e with base := e.base + i.baseAmount, quota := e.quota + i.ivaAmount }
          else e)).map (fun e => e.quota)).sum
        = (acc.map (fun e => e.quota)).sum + i.ivaAmount
  | [], _, hc => by simp at hc
  | a :: t, h, hc => by
    rw [List.map_cons, List.map_cons, List.map_cons]
    by_cases har : a.rate == i.ivaRate
    · rw [if_pos har]
      have htail : ∀ e ∈ t, (e.rate == i.ivaRate) = false := by
        intro e he
        rw [List.map_cons, List.nodup_cons] at h
        rw [beq_eq_false_iff_ne]
        intro hcontra
        exact h.1 (List.mem_map.mpr ⟨e, he, hcontra.trans (beq_iff_eq.mp har).symm⟩)
      have hmap : t.map (fun e =>
          if e.rate == i.ivaRate then
            { e with base := e.base + i.baseAmount, quota := e.quota + i.ivaAmount }
          else e) = t := by
        rw [List.map_congr_left (g := fun e => e) (fun e he => if_neg (by
          rw [htail e he]
          simp))]
        exact List.map_id' t
      rw [hmap]
      rw [List.sum_cons, List.sum_cons]
      ring
    · rw [if_neg har]
      rw [List.sum_cons, List.sum_cons]
      have hc' : t.any (fun e => e.rate == i.ivaRate) = true := by
        have har' : (a.rate == i.ivaRate) = false := by
          rwa [Bool.not_eq_true] at har
        rw [List.any_cons, har', Bool.false_or] at hc
        exact hc
      have h' : (t.map (fun e => e.rate)).Nodup := by
        rw [List.map_cons, List.nodup_cons] at h
        exact h.2
      rw [quota_sum_update i t h' hc']
      ring

theorem foldl_addRate_nodup :
    ∀ (l : List Invoice) (acc : List RateEntry),
      (acc.map (fun e => e.rate)).Nodup →
      ((l.foldl addRate acc).map (fun e => e.rate)).Nodup
  | [], _, h => h
  | i :: t, acc, h => by
    rw [List.foldl_cons]
    exact foldl_addRate_nodup t (addRate acc i) (addRate_keys_nodup acc i h)

theorem foldl_addRate_quota :
    ∀ (l : List Invoice) (acc : List RateEntry),
      (acc.map (fun e => e.rate)).Nodup →
      ((l.foldl addRate acc).map (fun e => e.quota)).sum
        = (acc.map (fun e => e.quota)).sum + sumBy (fun i => i.ivaAmount) l
  | [], acc, _ => by simp [sumBy]
  | i :: t, acc, h => by
    rw [List.foldl_cons,
      foldl_addRate_quota t (addRate acc i) (addRate_keys_nodup acc i h), sumBy_cons]
    have hstep : ((addRate acc i).map (fun e => e.quota)).sum
        = (acc.map (fun e => e.quota)).sum + i.ivaAmount := by
      unfold addRate
      by_cases hc : acc.any (fun e => e.rate == i.ivaRate)
      · rw [if_pos hc]
        exact quota_sum_update i acc h hc
      · rw [if_neg hc, List.map_append, List.sum_append]
        simp
    rw [hstep]
    ring

theorem foldl_addRate_origin :
    ∀ (l : List Invoice) (acc : List RateEntry) (e : RateEntry),
      e ∈ l.foldl addRate acc →
      (∃ a ∈ acc, a.rate = e.rate) ∨ ∃ i ∈ l, i.ivaRate = e.rate
  | [], _, e, h => Or.inl ⟨e, h, rfl⟩
  | i :: t, acc, e, h => by
    rw [List.foldl_cons] at h
    rcases foldl_addRate_origin t (addRate acc i) e h with ⟨a, ha, hr⟩ | ⟨j, hj, hr⟩
    · unfold addRate at ha
      by_cases hc : acc.any (fun x => x.rate == i.ivaRate)
      · rw [if_pos hc] at ha
        rcases List.mem_map.mp ha with ⟨b, hb, hba⟩
        refine Or.inl ⟨b, hb, ?_⟩
        rw [← hr, ← hba]
        exact (rateUpd_rate i b).symm
      · rw [if_neg hc] at ha
        rcases List.mem_append.mp ha with hacc | hnew
        · exact Or.inl ⟨a, hacc, hr⟩
        · rw [List.mem_singleton] at hnew
          refine Or.inr ⟨i, List.mem_cons_self i t, ?_⟩
          rw [← hr, hnew]
    · exact Or.inr ⟨j, List.mem_cons_of_mem i hj, hr⟩

/-- Claim C7: the Model 390 deductible-expense breakdown is sorted by VAT
rate descending, its per-rate VAT quotas sum back to the annual input VAT
(the sum of ivaAmount over the year's deductible expenses), its rates are
pairwise distinct (grouping), every listed rate originates from some
deductible expense of the year, and an empty deductible-expense set yields
an empty breakdown rather than an error. -/
theorem claim_C7 (inv : List Invoice) (y : Nat) :
    List.Sorted rateGE (listadoDesgloseSoportado inv y)
    ∧ ((listadoDesgloseSoportado inv y).map (fun e => e.quota)).sum = ivaSoportado inv y
    ∧ ((listadoDesgloseSoportado inv y).map (fun e => e.rate)).Nodup
    ∧ (∀ e ∈ listadoDesgloseSoportado inv y, ∃ i ∈ expenses inv y, i.ivaRate = e.rate)
    ∧ (expenses inv y = [] → listadoDesgloseSoportado inv y = []) := by
  have hperm : List.Perm (listadoDesgloseSoportado inv y) (desgloseSoportado inv y) :=
    List.perm_insertionSort rateGE _
  have hnodup0 : (([] : List RateEntry).map (fun e => e.rate)).Nodup := by simp
  refine ⟨List.sorted_insertionSort rateGE _, ?_, ?_, ?_, ?_⟩
  · rw [(hperm.map (fun e => e.quota)).sum_eq]
    unfold desgloseSoportado
    rw [foldl_addRate_quota (expenses inv y) [] hnodup0]
    simp [ivaSoportado]
  · rw [(hperm.map (fun e => e.rate)).nodup_iff]
    exact foldl_addRate_nodup (expenses inv y) [] hnodup0
  · intro e he
    have hmem : e ∈ desgloseSoportado inv y := hperm.mem_iff.mp he
    rcases foldl_addRate_origin (expenses inv y) [] e hmem with ⟨a, ha, _⟩ | hfound
    · exact absurd ha (List.not_mem_nil a)
    · exact hfound
  · intro h
    unfold listadoDesgloseSoportado desgloseSoportado
    rw [h]
    rfl

/-- Witness for claim C7 at the empty record set: the empty
deductible-expense set yields the empty breakdown. -/
theorem claim_C7_witness :
    expenses ([] : List Invoice) 2025 = []
    ∧ listadoDesgloseSoportado ([] : List Invoice) 2025 = [] :=
  ⟨rfl, (claim_C7 [] 2025).2.2.2.2 rfl⟩

/-
The 347 grouping fold: a find? characterisation giving, per tax id, the
accumulated absolute total together with the name and type taken from the
group's first record.
-/

theorem opUpd_nif (curr : Invoice) (e : Op347) :
    (if e.nif == curr.nif then { e with total := e.total + |curr.totalAmount| }
     else e).nif = e.nif := by
  by_cases hc : e.nif == curr.nif
  · rw [if_pos hc]
  · rw [if_neg hc]

theorem addOp_keys_nodup (acc : List Op347) (curr : Invoice)
    (h : (acc.map (fun e => e.nif)).Nodup) :
    ((addOp acc curr).map (fun e => e.nif)).Nodup := by
  unfold addOp
  by_cases hc : acc.any (fun e => e.nif == curr.nif)
  · rw [if_pos hc, List.map_map]
    have heq : ((fun e : Op347 => e.nif) ∘ fun e =>
        if e.nif == curr.nif then { e with total := e.total + |curr.totalAmount| }
        else e) = fun e : Op347 => e.nif := by
      funext e
      exact opUpd_nif curr e
    rw [heq]
    exact h
  · rw [if_neg hc, List.map_append, List.nodup_append]
    refine ⟨h, by simp, ?_⟩
    intro a ha hb
    rw [List.map_cons, List.map_nil, List.mem_singleton] at hb
    rcases List.mem_map.mp ha with ⟨e, he, hr⟩
    rw [Bool.not_eq_true, List.any_eq_false] at hc
    exact hc e he (beq_iff_eq.mpr (hr.trans hb))

theorem foldl_addOp_nodup :
    ∀ (l : List Invoice) (acc : List Op347),
      (acc.map (fun e => e.nif)).Nodup →
      ((l.foldl addOp acc).map (fun e => e.nif)).Nodup
  | [], _, h => h
  | i :: t, acc, h => by
    rw [List.foldl_cons]
    exact foldl_addOp_nodup t (addOp acc i) (addOp_keys_nodup acc i h)

theorem groupTotal347_nil (n : String) : groupTotal347 [] n = 0 := rfl

theorem groupTotal347_cons (i : Invoice) (t : List Invoice) (n : String) :
    groupTotal347 (i :: t) n
      = (if i.nif == n then |i.totalAmount| else 0) + groupTotal347 t n := by
  unfold groupTotal347
  rw [List.filter_cons]
  by_cases hc : i.nif == n
  · rw [if_pos hc, if_pos hc, sumBy_cons]
  · rw [if_neg hc, if_neg hc, zero_add]

theorem addOp_find (acc : List Op347) (curr : Invoice) (n : String) :
    (addOp acc curr).find? (fun e => e.nif == n)
      = if curr.nif == n then
          match acc.find? (fun e => e.nif == n) with
          | some e => some { e with total := e.total + |curr.totalAmount| }
          | none => some { nif := curr.nif, name := curr.entityName,
                           total := |curr.totalAmount|, type := curr.type }
        else acc.find? (fun e => e.nif == n) := by
  unfold addOp
  by_cases hany : acc.any (fun e => e.nif == curr.nif)
  · rw [if_pos hany, List.find?_map]
    have hcomp : ((fun e : Op347 => e.nif == n) ∘ fun e =>
        if e.nif == curr.nif then { e with total := e.total + |curr.totalAmount| }
        else e) = fun e : Op347 => e.nif == n := by
      funext e
      simp only [Function.comp]
      rw [opUpd_nif]
    rw [hcomp]
    by_cases hcn : curr.nif == n
    · have hsome : (acc.find? (fun e => e.nif == n)).isSome := by
        rw [List.find?_isSome]
        rcases List.any_eq_true.mp hany with ⟨e, he, hpe⟩
        refine ⟨e, he, ?_⟩
        rw [beq_iff_eq] at hpe ⊢
        exact hpe.trans (beq_iff_eq.mp hcn)
      rcases Option.isSome_iff_exists.mp hsome with ⟨e, hfe⟩
      rw [hfe, if_pos hcn, Option.map_some']
      have hpe := List.find?_some hfe
      have he_nif : e.nif = n := beq_iff_eq.mp hpe
      have hupd : (e.nif == curr.nif) = true :=
        beq_iff_eq.mpr (he_nif.trans (beq_iff_eq.mp hcn).symm)
      rw [hupd]
      simp
    · rw [if_neg hcn]
      cases hfe : acc.find? (fun e => e.nif == n) with
      | none => rw [Option.map_none']
      | some e =>
        rw [Option.map_some']
        have hpe := List.find?_some hfe
        have he_nif : e.nif = n := beq_iff_eq.mp hpe
        have hupd : (e.nif == curr.nif) = false := by
          rw [beq_eq_false_iff_ne]
          intro hcontra
          exact hcn (beq_iff_eq.mpr (hcontra.symm.trans he_nif))
        rw [hupd]
        simp
  · rw [if_neg hany, List.find?_append]
    by_cases hcn : curr.nif == n
    · have hnone : acc.find? (fun e => e.nif == n) = none := by
        rw [List.find?_eq_none]
        intro e he hpe
        rw [Bool.not_eq_true, List.any_eq_false] at hany
        apply hany e he
        rw [beq_iff_eq] at hpe ⊢
        exact hpe.trans (beq_iff_eq.mp hcn).symm
      rw [hnone, Option.none_or, if_pos hcn]
      have harg : ((fun e : Op347 => e.nif == n)
          (Op347.mk curr.nif curr.entityName |curr.totalAmount| curr.type)) = true := hcn
      exact List.find?_cons_of_pos [] harg
    · rw [if_neg hcn]
      have hnew : ([(Op347.mk curr.nif curr.entityName |curr.totalAmount| curr.type)]).find?
          (fun e => e.nif == n) = none := by
        refine (List.find?_cons_of_neg [] ?_).trans List.find?_nil
        exact hcn
      rw [hnew, Option.or_none]

theorem foldl_addOp_find (n : String) :
    ∀ (l : List Invoice) (acc : List Op347),
      (l.foldl addOp acc).find? (fun e => e.nif == n)
        = match acc.find? (fun e => e.nif == n) with
          | some e => some { e with total := e.total + groupTotal347 l n }
          | none =>
            match l.find? (fun i => i.nif == n) with
            | some i => some { nif := n, name := i.entityName,
                               total := groupTotal347 l n, type := i.type }
            | none => none
  | [], acc => by
    cases hfe : acc.find? (fun e => e.nif == n) with
    | none =>
      rw [List.foldl_nil, hfe]
      rfl
    | some e =>
      rw [List.foldl_nil, hfe]
      show some e = some (Op347.mk e.nif e.name (e.total + groupTotal347 [] n) e.type)
      rw [groupTotal347_nil, add_zero]
  | i :: t, acc => by
    rw [List.foldl_cons, foldl_addOp_find n t (addOp acc i), addOp_find acc i n]
    by_cases hin : i.nif == n
    · rw [if_pos hin]
      cases hfe : acc.find? (fun e => e.nif == n) with
      | some e =>
        show some (Op347.mk e.nif e.name (e.total + abs i.totalAmount + groupTotal347 t n) e.type)
          = some (Op347.mk e.nif e.name (e.total + groupTotal347 (i :: t) n) e.type)
        rw [groupTotal347_cons, if_pos hin, add_assoc]
      | none =>
        have hfind : (i :: t).find? (fun j => j.nif == n) = some i :=
          List.find?_cons_of_pos t hin
        rw [hfind]
        show some (Op347.mk i.nif i.entityName (abs i.totalAmount + groupTotal347 t n) i.type)
          = some (Op347.mk n i.entityName (groupTotal347 (i :: t) n) i.type)
        rw [groupTotal347_cons, if_pos hin, beq_iff_eq.mp hin]
    · rw [if_neg hin]
      have hfind : (i :: t).find? (fun j => j.nif == n) = t.find? (fun j => j.nif == n) :=
        List.find?_cons_of_neg t hin
      rw [hfind, groupTotal347_cons, if_neg hin, zero_add]

theorem find?_of_mem_nodup :
    ∀ (acc : List Op347) (e : Op347),
      (acc.map (fun x => x.nif)).Nodup → e ∈ acc →
      acc.find? (fun x => x.nif == e.nif) = some e
  | [], e, _, he => absurd he (List.not_mem_nil e)
  | a :: t, e, h, he => by
    rcases List.mem_cons.mp he with rfl | het
    · exact List.find?_cons_of_pos t (beq_self_eq_true e.nif)
    · have hne : ¬((fun x : Op347 => x.nif == e.nif) a = true) := by
        intro hcontra
        rw [List.map_cons, List.nodup_cons] at h
        exact h.1 (List.mem_map.mpr ⟨e, het, (beq_iff_eq.mp hcontra).symm⟩)
      rw [List.find?_cons_of_neg t hne]
      refine find?_of_mem_nodup t e ?_ het
      rw [List.map_cons, List.nodup_cons] at h
      exact h.2

/-- Claim C6 counterexample: a counterparty with one INCOME record and two
EXPENSE records of 2000 each (total 6000, above the threshold) has EXPENSE
as its strictly dominant kind, yet the report lists the group with kind
INCOME, the kind of the group's first record; the reported kind is
therefore not the dominant kind the claim describes. -/
theorem claim_C6_counterexample :
    (model347List exC6 2025).map (fun e => e.type) = [InvoiceType.INCOME]
    ∧ dominantKind exC6 2025 "B11111111" = some InvoiceType.EXPENSE
    ∧ InvoiceType.INCOME ≠ InvoiceType.EXPENSE := by
  refine ⟨?_, ?_, by simp⟩
  · norm_num [model347List, operationsByNif, addOp, yearInvoices, exC6, baseInv,
      List.foldl, List.filter, abs]
  · decide

/-- Claim C6 (amended): the Model 347 report groups the selected year's
records of both kinds by counterpartyTaxId with per-group total the sum of
the absolute totalAmount, keeps exactly the groups whose total strictly
exceeds 3005.06, and reports each kept group's tax id, total, and the name
and the kind of the group's first record in input order (not the dominant
kind, as the counterexample shows). -/
theorem claim_C6_amended (inv : List Invoice) (y : Nat) :
    (∀ e ∈ model347List inv y,
        (3005.06 : ℚ) < e.total
        ∧ e.total = groupTotal347 (yearInvoices inv y) e.nif
        ∧ ∃ i, (yearInvoices inv y).find? (fun j => j.nif == e.nif) = some i
              ∧ e.name = i.entityName ∧ e.type = i.type)
    ∧ (∀ n : String,
        (3005.06 : ℚ) < groupTotal347 (yearInvoices inv y) n
        → (∃ i ∈ yearInvoices inv y, i.nif = n)
        → ∃ e ∈ model347List inv y,
            e.nif = n ∧ e.total = groupTotal347 (yearInvoices inv y) n) := by
  have hkeys : ((operationsByNif inv y).map (fun e => e.nif)).Nodup :=
    foldl_addOp_nodup (yearInvoices inv y) [] (by simp)
  constructor
  · intro e he
    rw [model347List, List.mem_filter] at he
    have hthr : (3005.06 : ℚ) < e.total := of_decide_eq_true he.2
    have hfind : (operationsByNif inv y).find? (fun x => x.nif == e.nif) = some e :=
      find?_of_mem_nodup (operationsByNif inv y) e hkeys he.1
    have hchar := foldl_addOp_find e.nif (yearInvoices inv y) []
    have hfold : List.foldl addOp [] (yearInvoices inv y) = operationsByNif inv y := rfl
    rw [List.find?_nil, hfold, hfind] at hchar
    cases hyf : (yearInvoices inv y).find? (fun j => j.nif == e.nif) with
    | none =>
      rw [hyf] at hchar
      exact absurd hchar (by simp)
    | some i =>
      rw [hyf] at hchar
      have hcomp := Option.some.inj hchar
      refine ⟨hthr, ?_, i, rfl, ?_, ?_⟩
      · exact congrArg Op347.total hcomp
      · exact congrArg Op347.name hcomp
      · exact congrArg Op347.type hcomp
  · intro n hthr hex
    rcases hex with ⟨i0, hi0, hn0⟩
    have hsome : ((yearInvoices inv y).find? (fun j => j.nif == n)).isSome := by
      rw [List.find?_isSome]
      exact ⟨i0, hi0, beq_iff_eq.mpr hn0⟩
    rcases Option.isSome_iff_exists.mp hsome with ⟨i, hyf⟩
    have hchar := foldl_addOp_find n (yearInvoices inv y) []
    have hfold : List.foldl addOp [] (yearInvoices inv y) = operationsByNif inv y := rfl
    rw [List.find?_nil, hfold, hyf] at hchar
    have hmem : (Op347.mk n i.entityName (groupTotal347 (yearInvoices inv y) n) i.type)
        ∈ operationsByNif inv y :=
      List.mem_of_find?_eq_some hchar
    refine ⟨Op347.mk n i.entityName (groupTotal347 (yearInvoices inv y) n) i.type, ?_, rfl, rfl⟩
    rw [model347List, List.mem_filter]
    exact ⟨hmem, decide_eq_true hthr⟩

/-- Witness for claim C6: a counterparty with a single 4000 income is
reported with the accumulated group total. -/
theorem claim_C6_witness :
    ((3005.06 : ℚ) < groupTotal347 (yearInvoices exC6w 2025) "B22222222")
    ∧ (∃ i ∈ yearInvoices exC6w 2025, i.nif = "B22222222")
    ∧ ∃ e ∈ model347List exC6w 2025,
        e.nif = "B22222222" ∧ e.total = groupTotal347 (yearInvoices exC6w 2025) "B22222222" := by
  have h1 : (3005.06 : ℚ) < groupTotal347 (yearInvoices exC6w 2025) "B22222222" := by
    norm_num [groupTotal347, yearInvoices, exC6w, baseInv, sumBy, List.filter, List.foldl, abs]
  have h2 : ∃ i ∈ yearInvoices exC6w 2025, i.nif = "B22222222" := by
    refine ⟨{ baseInv with
        id := "w6", nif := "B22222222", entityName := "Big Client",
        number := "A-25-4", totalAmount := 4000 }, ?_, rfl⟩
    norm_num [yearInvoices, exC6w, baseInv, List.filter]
  exact ⟨h1, h2, (claim_C6_amended exC6w 2025).2 "B22222222" h1 h2⟩
